import Mathlib

/-!
Shallow embedding of the bubble game's progression engine and bubble
entity (src/js/gamestate.js, src/js/bubble.js) together with the driver
loop that feeds them (the main controller file: timer callback, spawn,
pop, and off-screen eviction).  JavaScript numbers that the scoring path
can actually produce are modelled as rationals together with NaN; the
comparison and addition operators follow JavaScript semantics (every
comparison involving NaN is false, addition with NaN yields NaN).
-/

namespace BubbleGame

/-- Model of a JavaScript number as seen by the scoring path: a finite
value (modelled as a rational) or NaN. -/
inductive JSNum where
  | fin (q : ℚ)
  | nan
deriving DecidableEq, Repr

namespace JSNum

/-- JavaScript addition: NaN propagates. -/
def add : JSNum → JSNum → JSNum
  | fin a, fin b => fin (a + b)
  | _, _ => nan

/-- JavaScript strict comparison a < b: false whenever either side is NaN. -/
def lt : JSNum → JSNum → Bool
  | fin a, fin b => decide (a < b)
  | _, _ => false

/-- JavaScript comparison a >= b: false whenever either side is NaN. -/
def ge : JSNum → JSNum → Bool
  | fin a, fin b => decide (b ≤ a)
  | _, _ => false

/-- JavaScript strict equality === on numbers: NaN === x is always false. -/
def stricteq : JSNum → JSNum → Bool
  | fin a, fin b => decide (a = b)
  | _, _ => false

end JSNum

/-- Model of an arbitrary JavaScript value passed to addScore: either a
number or a value of some other type (string, undefined, object, ...),
which is all the typeof check in addScore distinguishes. -/
inductive JSVal where
  | jnum (v : JSNum)
  | other
deriving DecidableEq, Repr

/-- BubbleEntity (src/js/bubble.js).  Only the fields the core logic
reads are modelled: position, radius, fall speed and the gold flag.
Rendering fields (color, letter, opacity, ...) are presentation only. -/
structure Bubble where
  x : ℝ
  y : ℝ
  radius : ℝ
  speed : ℝ
  isGold : Bool

/-- Point value of a bubble, from the Bubble constructor:
this.points = isGold ? 5 : 1. -/
def Bubble.points (b : Bubble) : ℚ :=
  if b.isGold then 5 else 1

/-- Bubble.containsPoint (src/js/bubble.js): the Euclidean distance from
the query point to the bubble's center, computed with Math.sqrt, is
compared against the radius with <=, so the boundary counts as a hit. -/
def Bubble.containsPoint (b : Bubble) (px py : ℝ) : Prop :=
  Real.sqrt ((px - b.x) ^ 2 + (py - b.y) ^ 2) ≤ b.radius

/-- Bubble.isOffScreen (src/js/bubble.js): y - radius > canvasHeight. -/
def Bubble.isOffScreen (b : Bubble) (canvasHeight : ℝ) : Prop :=
  b.y - b.radius > canvasHeight

/-- GameState (src/js/gamestate.js).  timeLeft is an integer because it
is only ever assigned 30 and decremented; it is ℤ rather than ℕ because
the driver's timer callback decrements with no floor.  score and
currentLevelScore are JSNum because addScore can feed NaN into them. -/
structure GameState where
  score : JSNum
  level : ℕ
  timeLeft : ℤ
  gameRunning : Bool
  bubbles : List Bubble
  lastBubbleSpawn : ℤ
  gameStartTime : ℤ
  currentLevelScore : JSNum
  bubblesPopped : ℕ
  bubblesSpawned : ℕ
  goldBubblesPopped : ℕ

/-- The GameState constructor: the state a fresh GameState() holds. -/
def initGameState : GameState :=
  { score := .fin 0
    level := 1
    timeLeft := 30
    gameRunning := false
    bubbles := []
    lastBubbleSpawn := 0
    gameStartTime := 0
    currentLevelScore := .fin 0
    bubblesPopped := 0
    bubblesSpawned := 0
    goldBubblesPopped := 0 }

/-- The level target table from the GameState constructor. -/
def levelTargets : List ℚ :=
  [5, 10, 20, 35, 55, 80, 110, 145, 185, 230]

/-- GameState.getCurrentTarget: for level <= 10 the (level)-th entry of
levelTargets (1-indexed, in range for every level >= 1, which holds in
every state the engine produces), otherwise the last entry plus 50 per
extra level. -/
def getCurrentTarget (level : ℕ) : ℚ :=
  if level ≤ levelTargets.length then
    levelTargets.getD (level - 1) 0
  else
    levelTargets.getD (levelTargets.length - 1) 0 +
      ((level - levelTargets.length : ℕ) : ℚ) * 50

/-- GameState.hasReachedTarget: currentLevelScore >= getCurrentTarget(),
under JavaScript comparison semantics (false if currentLevelScore is NaN). -/
def hasReachedTarget (s : GameState) : Bool :=
  JSNum.ge s.currentLevelScore (.fin (getCurrentTarget s.level))

/-- GameState.levelUp: level += 1, currentLevelScore = 0, timeLeft = 30. -/
def levelUp (s : GameState) : GameState :=
  { s with
    level := s.level + 1
    currentLevelScore := .fin 0
    timeLeft := 30 }

/-- GameState.addScore: rejected (returned unchanged) when points is not
of number type or points < 0; note that under JavaScript semantics both
0 and NaN pass this guard.  Otherwise score and currentLevelScore grow
by points, bubblesPopped is incremented, and goldBubblesPopped is
incremented when points === 5. -/
def addScore (s : GameState) (points : JSVal) : GameState :=
  match points with
  | .other => s
  | .jnum v =>
    if JSNum.lt v (.fin 0) then s
    else
      { s with
        score := s.score.add v
        currentLevelScore := s.currentLevelScore.add v
        bubblesPopped := s.bubblesPopped + 1
        goldBubblesPopped :=
          if JSNum.stricteq v (.fin 5) then s.goldBubblesPopped + 1
          else s.goldBubblesPopped }

/-- GameState.getBubbleSpawnRate: max(800 - (level - 1) * 100, 200). -/
def getBubbleSpawnRate (level : ℕ) : ℤ :=
  max (800 - ((level : ℤ) - 1) * 100) 200

/-- GameState.getBubbleFallSpeed: 1 + (level - 1) * 0.5. -/
def getBubbleFallSpeed (level : ℕ) : ℚ :=
  1 + ((level : ℚ) - 1) * (1 / 2)

/-- GameState.resetGame: every field is reassigned its default. -/
def resetGame (_ : GameState) : GameState :=
  { score := .fin 0
    level := 1
    timeLeft := 30
    gameRunning := false
    bubbles := []
    lastBubbleSpawn := 0
    gameStartTime := 0
    currentLevelScore := .fin 0
    bubblesPopped := 0
    bubblesSpawned := 0
    goldBubblesPopped := 0 }

/-- GameState.startGame: gameRunning = true and the current wall-clock
time is captured in gameStartTime. -/
def startGame (now : ℤ) (s : GameState) : GameState :=
  { s with gameRunning := true, gameStartTime := now }

/-- GameState.endGame: gameRunning = false (the rest of the method only
logs statistics). -/
def endGame (s : GameState) : GameState :=
  { s with gameRunning := false }

/-- GameState.calculateAccuracy: 0 when nothing was spawned, otherwise
the popped/spawned ratio as a percentage. -/
def calculateAccuracy (s : GameState) : ℚ :=
  if s.bubblesSpawned = 0 then 0
  else (s.bubblesPopped : ℚ) / (s.bubblesSpawned : ℚ) * 100

/-!
The driver (the main controller source file) mediates every mutation of
the engine during a run.  Its state-changing steps are embedded below;
presentation work (rendering, audio, UI text, overlays) is dropped as it
never touches the modelled state.
-/

/-- Driver timer callback installed by startTimer: when the game is not
running it only stops the timer; otherwise it decrements timeLeft by one
with no floor and, when the result is <= 0, ends the game via endGame
(which calls GameState.endGame). -/
def timerTick (s : GameState) : GameState :=
  if s.gameRunning then
    let s1 : GameState := { s with timeLeft := s.timeLeft - 1 }
    if s1.timeLeft ≤ 0 then endGame s1 else s1
  else s

/-- Driver start: the startGame function of the controller resets the
engine with resetGame and then starts it with GameState.startGame.
Named startRun here to keep it apart from GameState.startGame. -/
def startRun (now : ℤ) (s : GameState) : GameState :=
  startGame now (resetGame s)

/-- Driver spawn step (spawnBubble plus the lastBubbleSpawn update done
by updateGame): push a new bubble and count it as spawned.  The bubble's
random position, radius, color and gold flag are left arbitrary. -/
def spawnStep (s : GameState) (b : Bubble) (now : ℤ) : GameState :=
  { s with
    bubbles := s.bubbles ++ [b]
    bubblesSpawned := s.bubblesSpawned + 1
    lastBubbleSpawn := now }

/-- Driver processBubblePop: add the hit bubble's point value to the
score and remove the bubble from the list (splice at its index). -/
def processBubblePop (s : GameState) (i : ℕ) : GameState :=
  match s.bubbles[i]? with
  | none => s
  | some b =>
    let s1 := addScore s (.jnum (.fin b.points))
    { s1 with bubbles := s1.bubbles.eraseIdx i }

/-- Driver updateBubbles eviction branch: remove the bubble at index i
(the code does so when it reports isOffScreen). -/
def evictBubble (s : GameState) (i : ℕ) : GameState :=
  { s with bubbles := s.bubbles.eraseIdx i }

/-- States a run can reach through the driver.  The hit-test guard on
pops, the off-screen guard on evictions and the spawn-interval guard on
spawns are dropped, and bubble movement is over-approximated by allowing
the bubble list to be replaced by any list of the same length: each of
these only enlarges the set of states, so every invariant proved over
Reachable holds in particular for the real runs. -/
inductive Reachable : GameState → Prop where
  | init : Reachable initGameState
  | start (s : GameState) (now : ℤ) :
      Reachable s → Reachable (startRun now s)
  | spawn (s : GameState) (b : Bubble) (now : ℤ) :
      Reachable s → s.gameRunning = true → Reachable (spawnStep s b now)
  | pop (s : GameState) (i : ℕ) :
      Reachable s → s.gameRunning = true → Reachable (processBubblePop s i)
  | evict (s : GameState) (i : ℕ) :
      Reachable s → Reachable (evictBubble s i)
  | move (s : GameState) (bs : List Bubble) :
      Reachable s → bs.length = s.bubbles.length →
      Reachable { s with bubbles := bs }
  | tick (s : GameState) :
      Reachable s → Reachable (timerTick s)
  | levelup (s : GameState) :
      Reachable s → Reachable (levelUp s)

/-- Inductive invariant of a run: the timer is at least 1 while the game
runs and never negative, and the popped counter plus the live bubbles
never exceed the spawned counter. -/
def Inv (s : GameState) : Prop :=
  (s.gameRunning = true → 1 ≤ s.timeLeft) ∧ 0 ≤ s.timeLeft ∧
    s.bubblesPopped + s.bubbles.length ≤ s.bubblesSpawned

theorem points_nonneg (b : Bubble) : 0 ≤ b.points := by
  unfold Bubble.points
  by_cases h : b.isGold <;> simp [h]

theorem reachable_inv {s : GameState} (h : Reachable s) : Inv s := by
  induction h with
  | init => refine ⟨fun h => by simp [initGameState] at h ⊢, by decide, by decide⟩
  | start s now _ ih =>
      refine ⟨fun _ => ?_, ?_, ?_⟩ <;>
        simp [startRun, startGame, resetGame]
  | spawn s b now _ hrun ih =>
      obtain ⟨h1, h2, h3⟩ := ih
      refine ⟨fun _ => h1 hrun, h2, ?_⟩
      simp only [spawnStep, List.length_append, List.length_cons,
        List.length_nil]
      omega
  | pop s i _ hrun ih =>
      obtain ⟨h1, h2, h3⟩ := ih
      cases hb : s.bubbles[i]? with
      | none =>
          have hrw : processBubblePop s i = s := by
            simp [processBubblePop, hb]
          rw [hrw]
          exact ⟨h1, h2, h3⟩
      | some b =>
          have hi : i < s.bubbles.length := by
            by_contra hc
            push_neg at hc
            rw [List.getElem?_eq_none hc] at hb
            exact Option.noConfusion hb
          have hguard : JSNum.lt (.fin b.points) (.fin 0) = false := by
            have := points_nonneg b
            simp [JSNum.lt]
            linarith
          have hrw : processBubblePop s i =
              { s with
                score := s.score.add (.fin b.points)
                currentLevelScore := s.currentLevelScore.add (.fin b.points)
                bubblesPopped := s.bubblesPopped + 1
                goldBubblesPopped :=
                  if JSNum.stricteq (.fin b.points) (.fin 5) then
                    s.goldBubblesPopped + 1
                  else s.goldBubblesPopped
                bubbles := s.bubbles.eraseIdx i } := by
            simp [processBubblePop, hb, addScore, hguard]
          rw [hrw]
          refine ⟨fun hr => h1 hr, h2, ?_⟩
          simp only [List.length_eraseIdx, hi, if_true]
          omega
  | evict s i _ ih =>
      obtain ⟨h1, h2, h3⟩ := ih
      refine ⟨h1, h2, ?_⟩
      simp only [evictBubble]
      have := List.length_eraseIdx (l := s.bubbles) (i := i)
      by_cases hi : i < s.bubbles.length <;> simp [hi] at this <;>
        omega
  | move s bs _ hlen ih =>
      obtain ⟨h1, h2, h3⟩ := ih
      exact ⟨h1, h2, by simpa [hlen] using h3⟩
  | tick s _ ih =>
      obtain ⟨h1, h2, h3⟩ := ih
      by_cases hr : s.gameRunning = true
      · have ht := h1 hr
        by_cases hz : s.timeLeft - 1 ≤ 0
        · have hrw : timerTick s =
              { s with timeLeft := s.timeLeft - 1, gameRunning := false } := by
            simp [timerTick, hr, hz, endGame]
          rw [hrw]
          exact ⟨fun hc => by simp at hc,
            show (0 : ℤ) ≤ s.timeLeft - 1 by omega, h3⟩
        · have hrw : timerTick s = { s with timeLeft := s.timeLeft - 1 } := by
            simp [timerTick, hr, hz]
          rw [hrw]
          exact ⟨fun _ => show (1 : ℤ) ≤ s.timeLeft - 1 by omega,
            show (0 : ℤ) ≤ s.timeLeft - 1 by omega, h3⟩
      · have hrw : timerTick s = s := by
          simp [timerTick, hr]
        rw [hrw]
        exact ⟨h1, h2, h3⟩
  | levelup s _ ih =>
      obtain ⟨h1, h2, h3⟩ := ih
      exact ⟨fun _ => by simp [levelUp], by simp [levelUp], h3⟩

theorem JSNum.add_fin_zero (v : JSNum) : v.add (.fin 0) = v := by
  cases v <;> simp [JSNum.add]

theorem JSNum.add_nan (v : JSNum) : v.add .nan = .nan := by
  cases v <;> rfl

/-- Closed form of getCurrentTarget beyond the ten-entry table. -/
theorem getCurrentTarget_of_gt_ten (L : ℕ) (h : 10 < L) :
    getCurrentTarget L = 230 + ((L : ℚ) - 10) * 50 := by
  have hlen : levelTargets.length = 10 := rfl
  have h10 : (10 : ℕ) ≤ L := by omega
  have hcast : ((L - 10 : ℕ) : ℚ) = (L : ℚ) - 10 := by
    rw [Nat.cast_sub h10]
    norm_num
  unfold getCurrentTarget
  rw [hlen, if_neg (by omega)]
  rw [show (10 - 1 : ℕ) = 9 from rfl, hcast]
  norm_num [levelTargets]

/-- C1 counterexample: the claim fails on the code.  The guard in
addScore is typeof-number and points < 0, so 0 and NaN both pass it:
addScore(0) on a fresh state changes bubblesPopped (from 0 to 1), and
addScore(NaN) changes score (from 0 to NaN), so neither call is a no-op
on the scoring state. -/
theorem c1_invalid_input_counterexample :
    (addScore initGameState (.jnum (.fin 0))).bubblesPopped ≠
      initGameState.bubblesPopped ∧
    (addScore initGameState (.jnum .nan)).score ≠ initGameState.score := by
  decide

/-- C1 (amended): addScore is a no-op exactly on non-numeric input and
on numeric input strictly below 0; an input of 0 passes the guard and
leaves score, levelScore and goldPoppedCount unchanged but increments
poppedCount, and NaN passes the guard, sets score and levelScore to NaN
and increments poppedCount. -/
theorem c1_addScore_guard :
    (∀ s : GameState, addScore s .other = s) ∧
    (∀ (s : GameState) (q : ℚ), q < 0 → addScore s (.jnum (.fin q)) = s) ∧
    (∀ s : GameState,
      (addScore s (.jnum (.fin 0))).score = s.score ∧
      (addScore s (.jnum (.fin 0))).currentLevelScore = s.currentLevelScore ∧
      (addScore s (.jnum (.fin 0))).goldBubblesPopped = s.goldBubblesPopped ∧
      (addScore s (.jnum (.fin 0))).bubblesPopped = s.bubblesPopped + 1) ∧
    (∀ s : GameState,
      (addScore s (.jnum .nan)).score = JSNum.nan ∧
      (addScore s (.jnum .nan)).currentLevelScore = JSNum.nan ∧
      (addScore s (.jnum .nan)).bubblesPopped = s.bubblesPopped + 1) := by
  refine ⟨fun s => rfl, fun s q hq => ?_, fun s => ?_, fun s => ?_⟩
  · simp [addScore, JSNum.lt, hq]
  · have hguard : JSNum.lt (.fin 0) (.fin 0) = false := by decide
    have hgold : JSNum.stricteq (.fin 0) (.fin 5) = false := by decide
    simp [addScore, hguard, hgold, JSNum.add_fin_zero]
  · have hguard : JSNum.lt .nan (.fin 0) = false := rfl
    simp [addScore, hguard, JSNum.add_nan]

/-- Witness for C1 (amended) at the concrete inputs named by the spec:
addScore(-3) is a no-op. -/
theorem c1_addScore_guard_witness :
    (-3 : ℚ) < 0 ∧ addScore initGameState (.jnum (.fin (-3))) = initGameState :=
  ⟨by norm_num, c1_addScore_guard.2.1 initGameState (-3) (by norm_num)⟩

/-- C2 counterexample: the claim fails on the code.  The timer callback
has no floor: applied to a running state with timeLeft = 0 it leaves
timeLeft = -1, not 0. -/
theorem c2_tick_no_floor_counterexample :
    ({ initGameState with gameRunning := true, timeLeft := 0 } :
      GameState).timeLeft = 0 ∧
    (timerTick { initGameState with gameRunning := true, timeLeft := 0 }
      ).timeLeft = -1 := by
  exact ⟨rfl, rfl⟩

/-- C2 (amended): while the game is running a timer tick decrements
timeLeft by exactly 1 with no floor (the callback instead ends the game
once the decremented value is <= 0); while not running a tick leaves the
state unchanged; and timeLeft >= 0 still holds in every reachable state
of a run, because the run ends exactly when the timer reaches 0. -/
theorem c2_tick_decrement_and_nonneg :
    (∀ s : GameState, s.gameRunning = true →
      (timerTick s).timeLeft = s.timeLeft - 1) ∧
    (∀ s : GameState, s.gameRunning = false → timerTick s = s) ∧
    (∀ s : GameState, Reachable s → 0 ≤ s.timeLeft) := by
  refine ⟨fun s hr => ?_, fun s hr => ?_, fun s hreach => ?_⟩
  · by_cases hz : s.timeLeft - 1 ≤ 0 <;>
      simp [timerTick, hr, hz, endGame]
  · simp [timerTick, hr]
  · exact (reachable_inv hreach).2.1

/-- Witness for C2 (amended): a tick on a freshly started run moves the
timer from 30 to 29, and the fresh engine state has a non-negative
timer. -/
theorem c2_tick_witness :
    (timerTick { initGameState with gameRunning := true }).timeLeft =
      ({ initGameState with gameRunning := true } : GameState).timeLeft - 1 ∧
    (0 : ℤ) ≤ initGameState.timeLeft :=
  ⟨c2_tick_decrement_and_nonneg.1 { initGameState with gameRunning := true } rfl,
    c2_tick_decrement_and_nonneg.2.2 initGameState Reachable.init⟩

/-- C3: getCurrentTarget is a pure function of the level; on levels 1
through 10 it returns the successive entries of the hardcoded table
[5, 10, 20, 35, 55, 80, 110, 145, 185, 230], beyond the table it
returns 230 + (level - 10) * 50, and in particular 280 at level 11 and
480 at level 15. -/
theorem c3_target_table :
    (getCurrentTarget 1 = 5 ∧ getCurrentTarget 2 = 10 ∧
      getCurrentTarget 3 = 20 ∧ getCurrentTarget 4 = 35 ∧
      getCurrentTarget 5 = 55 ∧ getCurrentTarget 6 = 80 ∧
      getCurrentTarget 7 = 110 ∧ getCurrentTarget 8 = 145 ∧
      getCurrentTarget 9 = 185 ∧ getCurrentTarget 10 = 230) ∧
    (∀ L : ℕ, 10 < L → getCurrentTarget L = 230 + ((L : ℚ) - 10) * 50) ∧
    getCurrentTarget 11 = 280 ∧ getCurrentTarget 15 = 480 := by
  refine ⟨by decide, getCurrentTarget_of_gt_ten, ?_, ?_⟩
  · rw [getCurrentTarget_of_gt_ten 11 (by norm_num)]
    norm_num
  · rw [getCurrentTarget_of_gt_ten 15 (by norm_num)]
    norm_num

/-- Witness for C3 at level 11, discharging the beyond-the-table bound. -/
theorem c3_target_table_witness :
    10 < 11 ∧ getCurrentTarget 11 = 230 + ((11 : ℚ) - 10) * 50 :=
  ⟨by norm_num, c3_target_table.2.1 11 (by norm_num)⟩

/-- C4: hasReachedTarget is true exactly when the (finite) level score
has reached getCurrentTarget, and addScore does not clamp the level
score at the target: from level 1 with levelScore 4, addScore(5) yields
levelScore 9 with hasReachedTarget true. -/
theorem c4_overshoot :
    (∀ (s : GameState) (q : ℚ), s.currentLevelScore = .fin q →
      (hasReachedTarget s = true ↔ getCurrentTarget s.level ≤ q)) ∧
    (∀ s : GameState, s.level = 1 → s.currentLevelScore = .fin 4 →
      (addScore s (.jnum (.fin 5))).currentLevelScore = .fin 9 ∧
      hasReachedTarget (addScore s (.jnum (.fin 5))) = true) := by
  constructor
  · intro s q hq
    simp [hasReachedTarget, hq, JSNum.ge]
  · intro s h1 h4
    have hguard : JSNum.lt (.fin (5 : ℚ)) (.fin 0) = false := by decide
    have hscore : (addScore s (.jnum (.fin 5))).currentLevelScore = .fin 9 := by
      simp [addScore, hguard, h4, JSNum.add]
      norm_num
    refine ⟨hscore, ?_⟩
    have hlevel : (addScore s (.jnum (.fin 5))).level = 1 := by
      simp [addScore, hguard, h1]
    simp [hasReachedTarget, hscore, hlevel, JSNum.ge, getCurrentTarget,
      levelTargets]
    norm_num

/-- Witness for C4 on the concrete engine state of the spec scenario:
fresh state at level 1 with levelScore 4. -/
theorem c4_overshoot_witness :
    (addScore { initGameState with currentLevelScore := .fin 4 }
        (.jnum (.fin 5))).currentLevelScore = .fin 9 ∧
    hasReachedTarget (addScore { initGameState with currentLevelScore := .fin 4 }
        (.jnum (.fin 5))) = true :=
  c4_overshoot.2 { initGameState with currentLevelScore := .fin 4 } rfl rfl

/-- C5: levelUp always increments the level by exactly 1, zeroes the
level score and resets the timer to 30, regardless of the prior state;
iterating it raises the level without bound. -/
theorem c5_levelUp :
    ∀ (s : GameState) (n : ℕ),
      (levelUp s).level = s.level + 1 ∧
      (levelUp s).currentLevelScore = JSNum.fin 0 ∧
      (levelUp s).timeLeft = 30 ∧
      (levelUp^[n] s).level = s.level + n := by
  intro s n
  refine ⟨rfl, rfl, rfl, ?_⟩
  induction n generalizing s with
  | zero => simp
  | succ m ih =>
      rw [Function.iterate_succ_apply]
      rw [ih (levelUp s)]
      show s.level + 1 + m = s.level + (m + 1)
      omega

/-- C6: calculateAccuracy returns 0 when nothing has spawned (no
division by zero), otherwise popped/spawned * 100, and on every
reachable state the value lies in [0, 100] (popped never exceeds
spawned along a run). -/
theorem c6_accuracy_bounds :
    ∀ s : GameState, Reachable s →
      (s.bubblesSpawned = 0 → calculateAccuracy s = 0) ∧
      (s.bubblesSpawned ≠ 0 →
        calculateAccuracy s =
          (s.bubblesPopped : ℚ) / (s.bubblesSpawned : ℚ) * 100) ∧
      0 ≤ calculateAccuracy s ∧ calculateAccuracy s ≤ 100 := by
  intro s hreach
  have hps : s.bubblesPopped ≤ s.bubblesSpawned := by
    have h3 := (reachable_inv hreach).2.2
    omega
  refine ⟨fun h => by simp [calculateAccuracy, h],
    fun h => by simp [calculateAccuracy, h], ?_, ?_⟩
  · unfold calculateAccuracy
    by_cases h : s.bubblesSpawned = 0
    · simp [h]
    · simp only [h, if_false]
      positivity
  · unfold calculateAccuracy
    by_cases h : s.bubblesSpawned = 0
    · simp [h]
    · simp only [h, if_false]
      have hpos : (0 : ℚ) < (s.bubblesSpawned : ℚ) := by
        exact_mod_cast Nat.pos_of_ne_zero h
      have hdiv : (s.bubblesPopped : ℚ) / (s.bubblesSpawned : ℚ) ≤ 1 := by
        rw [div_le_one hpos]
        exact_mod_cast hps
      have := mul_le_mul_of_nonneg_right hdiv
        (by norm_num : (0 : ℚ) ≤ 100)
      simpa using this

/-- Witness for C6 on the initial state, which is reachable. -/
theorem c6_accuracy_bounds_witness :
    calculateAccuracy initGameState = 0 ∧
    0 ≤ calculateAccuracy initGameState ∧
    calculateAccuracy initGameState ≤ 100 :=
  ⟨(c6_accuracy_bounds initGameState Reachable.init).1 rfl,
    (c6_accuracy_bounds initGameState Reachable.init).2.2.1,
    (c6_accuracy_bounds initGameState Reachable.init).2.2.2⟩

/-- C7: the spawn interval is max(800 - (level-1)*100, 200), hence
never below 200 (and exactly 200 at level 50), and the fall speed is
1 + (level-1)*0.5, hence exactly 1 at level 1 and 3 at level 5. -/
theorem c7_difficulty_curves :
    (∀ L : ℕ, 1 ≤ L →
      getBubbleSpawnRate L = max (800 - ((L : ℤ) - 1) * 100) 200 ∧
      200 ≤ getBubbleSpawnRate L ∧
      getBubbleFallSpeed L = 1 + ((L : ℚ) - 1) * (1 / 2)) ∧
    getBubbleSpawnRate 50 = 200 ∧
    getBubbleFallSpeed 1 = 1 ∧ getBubbleFallSpeed 5 = 3 := by
  refine ⟨fun L _ => ⟨rfl, le_max_right _ _, rfl⟩, by decide, ?_, ?_⟩
  · unfold getBubbleFallSpeed
    norm_num
  · unfold getBubbleFallSpeed
    norm_num

/-- Witness for C7 at level 1. -/
theorem c7_difficulty_curves_witness :
    (1 : ℕ) ≤ 1 ∧
    (getBubbleSpawnRate 1 = max (800 - ((1 : ℤ) - 1) * 100) 200 ∧
      200 ≤ getBubbleSpawnRate 1 ∧
      getBubbleFallSpeed 1 = 1 + ((1 : ℚ) - 1) * (1 / 2)) :=
  ⟨le_refl 1, c7_difficulty_curves.1 1 (le_refl 1)⟩

/-- C8: containsPoint holds exactly when the squared Euclidean distance
from the query point to the center is at most the squared radius, i.e.
when the Euclidean distance is at most the radius, the boundary
counting as a hit: a bubble at (100,100) with radius 20 contains
(120,100) but not (121,100). -/
theorem c8_containsPoint_boundary :
    (∀ (b : Bubble) (px py : ℝ), 0 ≤ b.radius →
      (b.containsPoint px py ↔
        (px - b.x) ^ 2 + (py - b.y) ^ 2 ≤ b.radius ^ 2)) ∧
    (Bubble.mk 100 100 20 1 false).containsPoint 120 100 ∧
    ¬ (Bubble.mk 100 100 20 1 false).containsPoint 121 100 := by
  have key : ∀ (b : Bubble) (px py : ℝ), 0 ≤ b.radius →
      (b.containsPoint px py ↔
        (px - b.x) ^ 2 + (py - b.y) ^ 2 ≤ b.radius ^ 2) := by
    intro b px py hrad
    unfold Bubble.containsPoint
    constructor
    · intro h
      have hnn : (0 : ℝ) ≤ (px - b.x) ^ 2 + (py - b.y) ^ 2 := by positivity
      calc (px - b.x) ^ 2 + (py - b.y) ^ 2
          = Real.sqrt ((px - b.x) ^ 2 + (py - b.y) ^ 2) ^ 2 :=
            (Real.sq_sqrt hnn).symm
        _ ≤ b.radius ^ 2 := pow_le_pow_left₀ (Real.sqrt_nonneg _) h 2
    · intro h
      have hs : Real.sqrt ((px - b.x) ^ 2 + (py - b.y) ^ 2) ≤
          Real.sqrt (b.radius ^ 2) := Real.sqrt_le_sqrt h
      rwa [Real.sqrt_sq hrad] at hs
  refine ⟨key, ?_, ?_⟩
  · rw [key (Bubble.mk 100 100 20 1 false) 120 100 (by norm_num)]
    show ((120 : ℝ) - 100) ^ 2 + ((100 : ℝ) - 100) ^ 2 ≤ (20 : ℝ) ^ 2
    norm_num
  · rw [key (Bubble.mk 100 100 20 1 false) 121 100 (by norm_num)]
    show ¬ (((121 : ℝ) - 100) ^ 2 + ((100 : ℝ) - 100) ^ 2 ≤ (20 : ℝ) ^ 2)
    norm_num

/-- Witness for C8 at the concrete bubble of the spec scenario. -/
theorem c8_containsPoint_boundary_witness :
    (0 : ℝ) ≤ (Bubble.mk 100 100 20 1 false).radius ∧
    ((Bubble.mk 100 100 20 1 false).containsPoint 120 100 ↔
      ((120 : ℝ) - (Bubble.mk 100 100 20 1 false).x) ^ 2 +
          ((100 : ℝ) - (Bubble.mk 100 100 20 1 false).y) ^ 2 ≤
        (Bubble.mk 100 100 20 1 false).radius ^ 2) :=
  ⟨show (0 : ℝ) ≤ 20 by norm_num,
    c8_containsPoint_boundary.1 (Bubble.mk 100 100 20 1 false) 120 100
      (show (0 : ℝ) ≤ 20 by norm_num)⟩

/-- C9: starting a run (driver reset followed by engine start) turns
the running flag on, captures the start timestamp, and resets score,
level, level score, timer and all three counters to their defaults. -/
theorem c9_start_resets :
    ∀ (s : GameState) (now : ℤ),
      (startRun now s).gameRunning = true ∧
      (startRun now s).gameStartTime = now ∧
      (startRun now s).score = JSNum.fin 0 ∧
      (startRun now s).level = 1 ∧
      (startRun now s).currentLevelScore = JSNum.fin 0 ∧
      (startRun now s).timeLeft = 30 ∧
      (startRun now s).bubblesSpawned = 0 ∧
      (startRun now s).bubblesPopped = 0 ∧
      (startRun now s).goldBubblesPopped = 0 := by
  intro s now
  exact ⟨rfl, rfl, rfl, rfl, rfl, rfl, rfl, rfl, rfl⟩

/-- C10: the level target is strictly increasing in the level, both
inside the hardcoded table and beyond it. -/
theorem c10_target_strict_mono :
    ∀ L : ℕ, 1 ≤ L → getCurrentTarget L < getCurrentTarget (L + 1) := by
  intro L hL
  by_cases h9 : L ≤ 9
  · interval_cases L <;> decide
  · by_cases h10 : L = 10
    · subst h10
      rw [getCurrentTarget_of_gt_ten 11 (by norm_num)]
      have : getCurrentTarget 10 = 230 := by decide
      rw [this]
      norm_num
    · have hgt : 10 < L := by omega
      rw [getCurrentTarget_of_gt_ten L hgt,
        getCurrentTarget_of_gt_ten (L + 1) (by omega)]
      push_cast
      linarith

/-- Witness for C10 at level 1. -/
theorem c10_target_strict_mono_witness :
    (1 : ℕ) ≤ 1 ∧ getCurrentTarget 1 < getCurrentTarget 2 :=
  ⟨le_refl 1, c10_target_strict_mono 1 (le_refl 1)⟩

end BubbleGame
